import Mathlib

/-!
Verification of the gitbook2pdf crawler.

The repository snapshot contains two revisions of the program:

* a legacy standalone script (`index.js`): CLI parsing, discovery and the
  archiving loop in one file, with `href2slug`, `collectLinks` and
  `downloadPage` as top-level functions;
* the current `Downloader` class (`src/downloader.js`, second revision)
  driven by a thin CLI entry that calls `new Downloader(options).run(url)`.

This file gives a shallow embedding of both revisions: the pure string
processing (`href2slug`, `collectLinks`, path joining) is translated
directly, and the effectful run loop is embedded as a deterministic
function from an environment (the behaviour of the network and browser,
`Env`) to the trace of externally visible events (`Ev`).  String
operations are implemented on `List Char` so that every definition
evaluates by kernel reduction.
-/

/-! ### Slug derivation (`#href2slug` in both revisions)

The external slugification collaborator is `@sindresorhus/slugify` called
with `preserveCharacters: ['/']`.  With those options the library
lowercases the string, replaces every maximal run of characters other
than `a`-`z`, `0`-`9` and the preserved `/` by the separator `-`, and
strips a leading and a trailing separator; preserved characters are kept
everywhere, including at the ends of the string.  The model below is
exact for ASCII inputs that contain no uppercase letter, no `&` (custom
replacement), no backslash and no hyphen-`t`/`-s` contraction pattern;
transliteration is the identity on such inputs. -/

/-- ASCII lowercasing of one character (the `toLowerCase` step). -/
def charLower (c : Char) : Char :=
  if 'A' ≤ c && c ≤ 'Z' then Char.ofNat (c.toNat + 32) else c

/-- A character kept verbatim by slugify with `preserveCharacters: ['/']`
(the pattern is built as `[^a-z\d/]+` after lowercasing). -/
def sepKept (c : Char) : Bool :=
  ('a' ≤ c && c ≤ 'z') || c.isDigit || c == '/'

/-- Global replacement of every maximal run of non-kept characters by a
single `-` (the `string.replace(patternSlug, '-')` step of slugify).
`prevSep` records whether we are inside a replaced run. -/
def sepReplaceAux : Bool → List Char → List Char
  | _, [] => []
  | prevSep, c :: cs =>
    if sepKept c then c :: sepReplaceAux false cs
    else if prevSep then sepReplaceAux true cs
    else '-' :: sepReplaceAux true cs

/-- Drop one leading occurrence of `c` if present. -/
def stripLeadingChar (c : Char) (l : List Char) : List Char :=
  if l.head? = some c then l.tail else l

/-- Drop one trailing occurrence of `c` if present. -/
def stripTrailingChar (c : Char) (l : List Char) : List Char :=
  if l.getLast? = some c then l.dropLast else l

/-- The `removeMootSeparators` step of slugify: strip one leading and one
trailing separator `-` (runs of `-` cannot occur after the replacement
step, so the `-{2,}` collapse of the library is vacuous here). -/
def stripEndDashes (l : List Char) : List Char :=
  stripTrailingChar '-' (stripLeadingChar '-' l)

/-- Model of `slugify(href, { preserveCharacters: ['/'] })`. -/
def slugifyPreserveSlash (s : String) : String :=
  ⟨stripEndDashes (sepReplaceAux false (s.data.map charLower))⟩

/-- Step `slug.replace(/\/+/g, '/')`: collapse every run of `/` to one `/`. -/
def collapseSlashesAux : Bool → List Char → List Char
  | _, [] => []
  | prev, c :: cs =>
    if c = '/' then
      if prev then collapseSlashesAux true cs
      else '/' :: collapseSlashesAux true cs
    else c :: collapseSlashesAux false cs

/-- String version of `collapseSlashesAux`. -/
def collapseSlashes (s : String) : String :=
  ⟨collapseSlashesAux false s.data⟩

/-- Model of `String.prototype.trim` (ASCII whitespace
suffices here: slugify output contains no whitespace at all). -/
def jsTrim (s : String) : String :=
  ⟨((s.data.dropWhile Char.isWhitespace).reverse.dropWhile Char.isWhitespace).reverse⟩

/-- Step `slug.replace(/\/$/, '')`: drop a single trailing `/` if present. -/
def stripTrailingSlash (s : String) : String :=
  ⟨stripTrailingChar '/' s.data⟩

/-- The shared prefix of both `#href2slug` revisions:
`slugify(href, {preserveCharacters: ['/']}).replace(/\/+/g, '/').trim()`. -/
def slugCore (href : String) : String :=
  jsTrim (collapseSlashes (slugifyPreserveSlash href))

/-- Function `href2slug` of the legacy revision (`index.js` lines 99-112 and the
first `Downloader` revision, `src/downloader.js` lines 173-186): the root
slug `/` is returned unchanged and mapped to `index` later, by the
caller's `switch`. -/
def href2slugOld (href : String) : String :=
  let slug := slugCore href
  if slug = "/" then slug else stripTrailingSlash slug

/-- Method `#href2slug` of the current `Downloader` revision
(`src/downloader.js` lines 378-392): the root slug `/` becomes the
constant `index`, otherwise a single trailing `/` is stripped. -/
def href2slug (href : String) : String :=
  let slug := slugCore href
  if slug = "/" then "index" else stripTrailingSlash slug

/-! ### Paths

`path.join(outDir, slug ++ ".pdf")` and `path.dirname`.  Slugs contain
only kept characters and `-`, so no `.`/`..` segments arise and joining
reduces to concatenation with `/` followed by collapsing repeated
slashes; the model assumes a non-empty `outDir` without trailing `/`,
which holds for every call site (the CLI default is `pages`). -/

/-- Model of Node's `path.join` for the arguments this program produces. -/
def pathJoin (a b : String) : String :=
  collapseSlashes (a ++ "/" ++ b)

/-- Split a character list at every `/`. -/
def splitSlash : List Char → List (List Char)
  | [] => [[]]
  | c :: cs =>
    match splitSlash cs with
    | [] => [[]]
    | h :: t => if c = '/' then [] :: h :: t else (c :: h) :: t

/-- Join segments with `/` (inverse of `splitSlash`). -/
def joinSlash : List (List Char) → List Char
  | [] => []
  | [x] => x
  | x :: xs => x ++ '/' :: joinSlash xs

/-- Model of Node's `path.dirname` for normalized relative paths. -/
def pathDirname (p : String) : String :=
  let parts := splitSlash p.data
  if parts.length ≤ 1 then "." else ⟨joinSlash parts.dropLast⟩

/-! ### Link discovery (`#collectLinks`)

`$('a[href^="/"]').map((i, link) => $(link).attr('href')).toArray()`
followed by `new Set(links)`.  The document is modelled as the list of
its anchor elements in document order, each carrying its optional `href`
attribute; a JavaScript `Set` built from an array keeps the first
occurrence of each element, in insertion order. -/

/-- An anchor element of the rendered start page. -/
structure Anchor where
  href : Option String
deriving DecidableEq

/-- The attribute-prefix test of the selector `a[href^="/"]`. -/
def startsWithSlash (s : String) : Bool :=
  s.data.head? = some '/'

/-- The CSS selection and attribute read: an anchor contributes its
`href` attribute exactly when that attribute exists and begins with `/`. -/
def anchorLink (a : Anchor) : Option String :=
  match a.href with
  | some h => if startsWithSlash h then some h else none
  | none => none

/-- The raw array of matching hrefs, before `new Set(...)`. -/
def rawLinks (doc : List Anchor) : List String :=
  doc.filterMap anchorLink

/-- Model of `new Set(l)` on an array of strings: first occurrences, in order. -/
def jsSetAux (seen : List String) : List String → List String
  | [] => []
  | h :: t => if h ∈ seen then jsSetAux seen t else h :: jsSetAux (h :: seen) t

/-- Model of `new Set(l)` as a deduplicated list. -/
def jsSet (l : List String) : List String :=
  jsSetAux [] l

/-- Method `#collectLinks` (`src/downloader.js` lines 370-376, identically
`index.js` lines 89-97). -/
def collectLinks (doc : List Anchor) : List String :=
  jsSet (rawLinks doc)

/-! ### Settings and the CLI (`part_000` and `Downloader`'s constructor)

The CLI (`src/unnamed/part_000`) takes the positional `<url>` plus the
options `-o` (`--outDir`, default `pages`) and `-t` (`--timeout`, seconds,
default 30, validated to parse as a non-negative number); those are the
only operator inputs.  `new Downloader(options)` computes
`{ ...Downloader.defaults, ...settings }` — the commander options object
carries exactly the keys `outDir` and `timeout`, so the merge keeps the
default `pdfOptions` — and then multiplies `timeout` by 1000. -/

/-- The fixed margin record of `Downloader.defaults.pdfOptions.margin`. -/
structure PdfMargin where
  top : String
  right : String
  bottom : String
  left : String
deriving DecidableEq

/-- The PDF rendering options passed to `page.pdf` (scale is the literal
`0.95`, represented exactly as a rational). -/
structure PdfOptions where
  width : ℕ
  height : ℕ
  scale : ℚ
  margin : PdfMargin
deriving DecidableEq

/-- Shape of `Downloader.defaults` (`src/downloader.js` lines 197-212). -/
structure DownloaderDefaults where
  timeout : ℚ
  outDir : String
  pdfOptions : PdfOptions

/-- The literal `Downloader.defaults` object. -/
def Downloader.defaults : DownloaderDefaults :=
  { timeout := 30
    outDir := "pages"
    pdfOptions :=
      { width := 745
        height := 1123
        scale := 0.95
        margin := { top := "50px", right := "25px", bottom := "50px", left := "25px" } } }

/-- What the CLI hands to `new Downloader(options)`: the parsed option
values.  `timeout` is the validated `parseFloat` result in seconds (the
`<url>` argument is passed to `run`, not to the constructor). -/
structure CliOptions where
  outDir : String
  timeout : ℚ

/-- The per-run settings after the constructor
(`{ ...Downloader.defaults, ...settings }; this.settings.timeout *= 1000`). -/
structure Settings where
  timeout : ℚ
  outDir : String
  pdfOptions : PdfOptions

/-- Value of `new Downloader(options).settings`. -/
def mkSettings (cli : CliOptions) : Settings :=
  { timeout := cli.timeout * 1000
    outDir := cli.outDir
    pdfOptions := Downloader.defaults.pdfOptions }

/-! ### The run, as a trace of observable events

The environment `Env` fixes the behaviour of everything outside the
program: the outcome of each navigation and of the DOM-preparation and
PDF-rendering calls, the rendered start document, and the platform
check.  Per-link navigations are keyed by the link's raw href (the
navigated URL `new URL(href, targetURL)` is a function of it).  The run
functions below return the ordered list of observable events. -/

/-- Outcome of `page.goto`: either the promise rejects (navigation
error / timeout) or a response with its `ok` flag, status text and
status code arrives. -/
inductive NavResult where
  | throws : NavResult
  | response (ok : Bool) (statusText : String) (status : Nat) : NavResult
deriving DecidableEq

/-- The behaviour of the outside world during one run. -/
structure Env where
  target : String
  entryNav : NavResult
  isGitBook : Bool
  doc : List Anchor
  linkNav : String → NavResult
  prepareOk : String → Bool
  pdfOk : String → Bool

/-- Observable events of a run. -/
inductive Ev where
  | launch : Ev
  | browserClose : Ev
  | newPage : Ev
  | pageClose : Ev
  | goto (url : String) : Ev
  | mkdir (dir : String) : Ev
  | pdfWrite (path : String) : Ev
  | warnEmptySlug (href : String) : Ev
  | errorDownload (href : String) : Ev
  | fatalLog : Ev
  | exitCode (code : Nat) : Ev
deriving DecidableEq

/-- Value of `response.ok()` of a navigation outcome (`false` if it threw). -/
def navOk : NavResult → Bool
  | NavResult.throws => false
  | NavResult.response ok _ _ => ok

/-- Sequential `for (let href of links)` over the discovered links,
concatenating each iteration's events. -/
def loopTrace (f : String → List Ev) : List String → List Ev
  | [] => []
  | h :: t => f h ++ loopTrace f t

/-- Method `#downloadPage` of the current revision (`src/downloader.js` lines
338-364): open a page, `goto`, throw on a non-ok response, run the
callback, render the PDF — with every error caught and logged by the
method's own `catch`, and the page closed in `finally`.  The caller's
callback is passed as its event list plus its success flag. -/
def downloadPageNew (env : Env) (href p : String) (cb : List Ev × Bool) : List Ev :=
  [Ev.newPage, Ev.goto href] ++
    (match env.linkNav href with
     | NavResult.throws => [Ev.errorDownload href]
     | NavResult.response ok _ _ =>
       if ok then
         cb.1 ++
           (if cb.2 then
             (if env.pdfOk href then [Ev.pdfWrite p] else [Ev.errorDownload href])
            else [Ev.errorDownload href])
       else [Ev.errorDownload href]) ++
    [Ev.pageClose]

/-- Method `#downloadLink` of the current revision (`src/downloader.js` lines
271-291): derive the slug; on an empty slug warn and return; otherwise
compute the output path and call `#downloadPage` with the callback that
creates the output directory and prepares the page. -/
def downloadLinkNew (env : Env) (outDir href : String) : List Ev :=
  let slug := href2slug href
  if slug = "" then [Ev.warnEmptySlug href]
  else
    let outPath := pathJoin outDir (slug ++ ".pdf")
    downloadPageNew env href outPath
      ([Ev.mkdir (pathDirname outPath)], env.prepareOk href)

/-- Method `#runInternal` (`src/downloader.js` lines 237-269): visit the entry
URL (a rejection or non-ok response aborts by throwing), close the
discovery page, check the GitBook root marker, then archive every
collected link.  The boolean is `false` when the method throws. -/
def runInternalNew (env : Env) (outDir : String) : List Ev × Bool :=
  match env.entryNav with
  | NavResult.throws => ([Ev.newPage, Ev.goto env.target], false)
  | NavResult.response ok _ _ =>
    if ok then
      if env.isGitBook then
        ([Ev.newPage, Ev.goto env.target, Ev.pageClose] ++
           loopTrace (downloadLinkNew env outDir) (collectLinks env.doc), true)
      else ([Ev.newPage, Ev.goto env.target, Ev.pageClose], false)
    else ([Ev.newPage, Ev.goto env.target], false)

/-- Method `Downloader.run` (`src/downloader.js` lines 221-235): launch the
browser, run `#runInternal`, log fatally and rethrow on error, and close
the browser in `finally` on every path.  The boolean is `false` when the
rethrown error escapes. -/
def runNew (env : Env) (outDir : String) : List Ev × Bool :=
  (Ev.launch :: (runInternalNew env outDir).1 ++
     (if (runInternalNew env outDir).2 then [] else [Ev.fatalLog]) ++
     [Ev.browserClose],
   (runInternalNew env outDir).2)

/-- The CLI action (`src/unnamed/part_000` lines 31-38): `await
downloader.run(url)`; a thrown error becomes `process.exit(1)`, and
normal completion exits with status 0. -/
def cliRun (env : Env) (outDir : String) : List Ev × Nat :=
  ((runNew env outDir).1, if (runNew env outDir).2 then 0 else 1)

/-- Function `downloadPage` of the legacy script (`index.js` lines 61-87): no
internal `catch` — a navigation error, non-ok response, callback error
or rendering error propagates to the caller (flag `false`) after the
`finally` closes the page. -/
def downloadPageOld (env : Env) (href p : String) : List Ev × Bool :=
  match env.linkNav href with
  | NavResult.throws => ([Ev.newPage, Ev.goto href, Ev.pageClose], false)
  | NavResult.response ok _ _ =>
    if ok then
      if env.prepareOk href then
        if env.pdfOk href then
          ([Ev.newPage, Ev.goto href, Ev.pdfWrite p, Ev.pageClose], true)
        else ([Ev.newPage, Ev.goto href, Ev.pageClose], false)
      else ([Ev.newPage, Ev.goto href, Ev.pageClose], false)
    else ([Ev.newPage, Ev.goto href, Ev.pageClose], false)

/-- One iteration of the legacy archiving loop (`index.js` lines
155-213): empty slug → warn and continue; `/` → `index`; then create the
output directory unconditionally, *before* attempting the download, and
catch and log any error of `downloadPage`. -/
def processLinkOld (env : Env) (outDir href : String) : List Ev :=
  let s := href2slugOld href
  if s = "" then [Ev.warnEmptySlug href]
  else
    let slug := if s = "/" then "index" else s
    let outPath := pathJoin outDir (slug ++ ".pdf")
    Ev.mkdir (pathDirname outPath) ::
      (let r := downloadPageOld env href outPath
       r.1 ++ (if r.2 then [] else [Ev.errorDownload href]))

/-- The legacy script's main IIFE (`index.js` lines 114-216): launch,
visit the entry URL — `process.exit(1)` on rejection or non-ok response
— collect links, run the loop, and only then `browser.close()`. -/
def mainOld (env : Env) (outDir : String) : List Ev :=
  [Ev.launch, Ev.newPage, Ev.goto env.target] ++
    (match env.entryNav with
     | NavResult.throws => [Ev.exitCode 1]
     | NavResult.response ok _ _ =>
       if ok then
         Ev.pageClose :: loopTrace (processLinkOld env outDir) (collectLinks env.doc) ++
           [Ev.browserClose]
       else [Ev.exitCode 1])

/-- Predicate `discoveryOk`: the discovery phase of the current revision completes
without throwing (entry response ok and the GitBook marker present). -/
def discoveryOk (env : Env) : Bool :=
  navOk env.entryNav && env.isGitBook

/-- A link's archiving fails at some step: navigation error/timeout,
non-2xx response, DOM-preparation error, or rendering error. -/
def linkFails (env : Env) (href : String) : Bool :=
  !navOk (env.linkNav href) || !env.prepareOk href || !env.pdfOk href

/-! ### Concrete environments used in closed statements -/

/-- Everything succeeds; the document holds a duplicate internal link and
an external one. -/
def envAllOk : Env :=
  { target := "https://example.com/"
    entryNav := NavResult.response true "OK" 200
    isGitBook := true
    doc := [⟨some "/x"⟩, ⟨some "/x"⟩, ⟨some "https://other.example/x"⟩, ⟨some "/"⟩]
    linkNav := fun _ => NavResult.response true "OK" 200
    prepareOk := fun _ => true
    pdfOk := fun _ => true }

/-- The entry navigation itself rejects (e.g. a timeout). -/
def envEntryFails : Env :=
  { target := "https://example.com/"
    entryNav := NavResult.throws
    isGitBook := true
    doc := []
    linkNav := fun _ => NavResult.throws
    prepareOk := fun _ => true
    pdfOk := fun _ => true }

/-- Discovery succeeds, but the navigation to the only link `/x`
rejects. -/
def envLinkNavFails : Env :=
  { target := "https://example.com/"
    entryNav := NavResult.response true "OK" 200
    isGitBook := true
    doc := [⟨some "/x"⟩]
    linkNav := fun _ => NavResult.throws
    prepareOk := fun _ => true
    pdfOk := fun _ => true }

/-- Discovery succeeds; of the two links, `/a`'s navigation rejects and
`/b` archives fine. -/
def envOneBad : Env :=
  { target := "https://example.com/"
    entryNav := NavResult.response true "OK" 200
    isGitBook := true
    doc := [⟨some "/a"⟩, ⟨some "/b"⟩]
    linkNav := fun h => if h = "/a" then NavResult.throws else NavResult.response true "OK" 200
    prepareOk := fun _ => true
    pdfOk := fun _ => true }

/-! ### Helper lemmas -/

/-- Membership in `jsSetAux`: an element occurs iff it occurs in the
input and was not already seen. -/
theorem mem_jsSetAux (a : String) (l : List String) :
    ∀ seen, (a ∈ jsSetAux seen l ↔ a ∈ l ∧ a ∉ seen) := by
  induction l with
  | nil => intro seen; simp [jsSetAux]
  | cons h t ih =>
    intro seen
    by_cases hs : h ∈ seen
    · rw [jsSetAux, if_pos hs, ih seen]
      by_cases hah : a = h
      · subst hah; simp [hs]
      · simp [List.mem_cons, hah]
    · rw [jsSetAux, if_neg hs]
      by_cases hah : a = h
      · subst hah; simp [hs]
      · simp only [List.mem_cons, hah, false_or, or_false, ih (h :: seen)]

/-- Function `jsSetAux` never produces duplicates. -/
theorem nodup_jsSetAux (l : List String) : ∀ seen, (jsSetAux seen l).Nodup := by
  induction l with
  | nil => intro seen; simp [jsSetAux]
  | cons h t ih =>
    intro seen
    by_cases hs : h ∈ seen
    · rw [jsSetAux, if_pos hs]; exact ih seen
    · rw [jsSetAux, if_neg hs]
      refine List.nodup_cons.mpr ⟨fun hmem => ?_, ih (h :: seen)⟩
      exact ((mem_jsSetAux h t (h :: seen)).mp hmem).2 (List.mem_cons_self h seen)

/-- Membership in `jsSet` agrees with membership in the raw array. -/
theorem mem_jsSet (a : String) (l : List String) : a ∈ jsSet l ↔ a ∈ l := by
  rw [jsSet, mem_jsSetAux]; simp

/-- Result of `jsSet` has no duplicates. -/
theorem nodup_jsSet (l : List String) : (jsSet l).Nodup :=
  nodup_jsSetAux l []

/-- Characterization of the selector-and-attribute step. -/
theorem anchorLink_eq_some (a : Anchor) (h : String) :
    anchorLink a = some h ↔ a.href = some h ∧ startsWithSlash h = true := by
  rcases a with ⟨href⟩
  rcases href with _ | s
  · simp [anchorLink]
  · rw [anchorLink]
    simp only [Option.some.injEq]
    by_cases hsw : startsWithSlash s = true
    · rw [if_pos hsw]
      simp only [Option.some.injEq]
      constructor
      · rintro rfl; exact ⟨rfl, hsw⟩
      · rintro ⟨rfl, _⟩; rfl
    · rw [if_neg hsw]
      constructor
      · intro hx; cases hx
      · rintro ⟨rfl, hsw'⟩; exact absurd hsw' hsw

/-- Everything an iteration contributes is in the loop's trace. -/
theorem mem_loopTrace_of {f : String → List Ev} {l : List String} {h : String} {e : Ev}
    (hh : h ∈ l) (he : e ∈ f h) : e ∈ loopTrace f l := by
  induction l with
  | nil => cases hh
  | cons a t ih =>
    rw [loopTrace, List.mem_append]
    rcases List.mem_cons.mp hh with rfl | hmem
    · exact Or.inl he
    · exact Or.inr (ih hmem)

/-- Every event of the loop's trace comes from some iteration. -/
theorem exists_of_mem_loopTrace {f : String → List Ev} {l : List String} {e : Ev}
    (he : e ∈ loopTrace f l) : ∃ h ∈ l, e ∈ f h := by
  induction l with
  | nil => cases he
  | cons a t ih =>
    rw [loopTrace, List.mem_append] at he
    rcases he with he | he
    · exact ⟨a, List.mem_cons_self a t, he⟩
    · rcases ih he with ⟨h, hh, hfe⟩
      exact ⟨h, List.mem_cons_of_mem _ hh, hfe⟩

/-- Each link's iteration emits its attempt: the warning for an empty
slug, otherwise the navigation to the link. -/
theorem attempt_mem_downloadLinkNew (env : Env) (o href : String) :
    (if href2slug href = "" then Ev.warnEmptySlug href else Ev.goto href) ∈
      downloadLinkNew env o href := by
  by_cases h : href2slug href = ""
  · simp [downloadLinkNew, h]
  · simp [downloadLinkNew, h, downloadPageNew]

/-- A failing link's iteration logs the download error. -/
theorem error_mem_downloadLinkNew (env : Env) (o href : String)
    (h1 : ¬ href2slug href = "") (h2 : linkFails env href = true) :
    Ev.errorDownload href ∈ downloadLinkNew env o href := by
  cases hn : env.linkNav href with
  | throws => simp [downloadLinkNew, h1, downloadPageNew, hn]
  | response ok st c =>
    rw [linkFails, hn] at h2
    cases ok with
    | false => simp [downloadLinkNew, h1, downloadPageNew, hn]
    | true =>
      simp only [navOk, Bool.not_true, Bool.false_or] at h2
      cases hp : env.prepareOk href with
      | false => simp [downloadLinkNew, h1, downloadPageNew, hn, hp]
      | true =>
        cases hq : env.pdfOk href with
        | false => simp [downloadLinkNew, h1, downloadPageNew, hn, hp, hq]
        | true => rw [hp, hq] at h2; simp at h2

/-- A link iteration of the current revision never touches the browser
resource. -/
theorem no_browser_ev_downloadLinkNew (env : Env) (o href : String) :
    Ev.launch ∉ downloadLinkNew env o href ∧
      Ev.browserClose ∉ downloadLinkNew env o href := by
  by_cases h : href2slug href = ""
  · simp [downloadLinkNew, h]
  · cases hn : env.linkNav href with
    | throws => simp [downloadLinkNew, h, downloadPageNew, hn]
    | response ok st c =>
      cases ok with
      | false => simp [downloadLinkNew, h, downloadPageNew, hn]
      | true =>
        cases hc : env.prepareOk href with
        | false => simp [downloadLinkNew, h, downloadPageNew, hn, hc]
        | true =>
          cases hq : env.pdfOk href with
          | false => simp [downloadLinkNew, h, downloadPageNew, hn, hc, hq]
          | true => simp [downloadLinkNew, h, downloadPageNew, hn, hc, hq]

/-- The inner run method never touches the browser resource: it is
acquired and released only by `run` itself. -/
theorem no_browser_ev_runInternalNew (env : Env) (o : String) :
    Ev.launch ∉ (runInternalNew env o).1 ∧
      Ev.browserClose ∉ (runInternalNew env o).1 := by
  cases hn : env.entryNav with
  | throws => simp [runInternalNew, hn]
  | response ok st c =>
    cases ok with
    | false => simp [runInternalNew, hn]
    | true =>
      cases hg : env.isGitBook with
      | false => simp [runInternalNew, hn, hg]
      | true =>
        rw [runInternalNew, hn]
        simp only [hg, if_true]
        constructor
        · intro hmem
          simp only [List.cons_append, List.nil_append, List.mem_cons] at hmem
          rcases hmem with h | h | h | h
          · cases h
          · cases h
          · cases h
          · rcases exists_of_mem_loopTrace h with ⟨href, _, hm2⟩
            exact (no_browser_ev_downloadLinkNew env o href).1 hm2
        · intro hmem
          simp only [List.cons_append, List.nil_append, List.mem_cons] at hmem
          rcases hmem with h | h | h | h
          · cases h
          · cases h
          · cases h
          · rcases exists_of_mem_loopTrace h with ⟨href, _, hm2⟩
            exact (no_browser_ev_downloadLinkNew env o href).2 hm2

/-- When discovery succeeds, `#runInternal` returns normally and its
trace is the discovery prelude followed by the archiving loop. -/
theorem runInternalNew_of_discoveryOk (env : Env) (o : String)
    (hd : discoveryOk env = true) :
    runInternalNew env o =
      ([Ev.newPage, Ev.goto env.target, Ev.pageClose] ++
         loopTrace (downloadLinkNew env o) (collectLinks env.doc), true) := by
  rw [discoveryOk, Bool.and_eq_true] at hd
  cases hn : env.entryNav with
  | throws => rw [hn] at hd; simp [navOk] at hd
  | response ok st c =>
    rw [hn] at hd
    cases ok with
    | false => simp [navOk] at hd
    | true => simp [runInternalNew, hn, hd.2]

/-- If a link is discovered, every event of its iteration reaches the
final CLI trace. -/
theorem mem_cliRun_of_mem_iteration (env : Env) (o href : String) (e : Ev)
    (hd : discoveryOk env = true) (hmem : href ∈ collectLinks env.doc)
    (he : e ∈ downloadLinkNew env o href) : e ∈ (cliRun env o).1 := by
  have hin := mem_loopTrace_of hmem he
  rw [cliRun, runNew, runInternalNew_of_discoveryOk env o hd]
  simp [hin]

/-! ### The claims -/

/-- C1: per-link error isolation.  Whenever discovery succeeds, the run
exits with status 0; every discovered link is processed (its navigation
is attempted, or the empty-slug warning is emitted), regardless of other
links' outcomes; and every link whose archiving fails at any step
(navigation error, timeout, non-2xx response, preparation or rendering
error) has its error caught and logged in the final trace. -/
theorem per_link_failure_isolated (env : Env) (o : String)
    (hd : discoveryOk env = true) :
    (cliRun env o).2 = 0 ∧
    (∀ href ∈ collectLinks env.doc,
      (if href2slug href = "" then Ev.warnEmptySlug href else Ev.goto href) ∈
        (cliRun env o).1) ∧
    (∀ href ∈ collectLinks env.doc, ¬ href2slug href = "" → linkFails env href = true →
      Ev.errorDownload href ∈ (cliRun env o).1) := by
  refine ⟨?_, ?_, ?_⟩
  · simp [cliRun, runNew, runInternalNew_of_discoveryOk env o hd]
  · intro href hmem
    exact mem_cliRun_of_mem_iteration env o href _ hd hmem
      (attempt_mem_downloadLinkNew env o href)
  · intro href hmem h1 h2
    exact mem_cliRun_of_mem_iteration env o href _ hd hmem
      (error_mem_downloadLinkNew env o href h1 h2)

/-- C1 witness: in a run where the navigation of `/a` rejects and `/b`
archives fine, the error for `/a` is logged, `/b` is still navigated to,
and the exit status is 0. -/
theorem per_link_failure_isolated_witness :
    (cliRun envOneBad "pages").2 = 0 ∧
    Ev.errorDownload "/a" ∈ (cliRun envOneBad "pages").1 ∧
    Ev.goto "/b" ∈ (cliRun envOneBad "pages").1 := by
  have h := per_link_failure_isolated envOneBad "pages" (by decide)
  refine ⟨h.1, h.2.2 "/a" (by decide) (by decide) (by decide), ?_⟩
  have h2 := h.2.1 "/b" (by decide)
  rw [if_neg (by decide : ¬ href2slug "/b" = "")] at h2
  exact h2

/-- C2 (amended): in the current revision's `Downloader.run`, the
browsing engine is acquired exactly once and released exactly once, on
every exit path — normal completion, fatal discovery failure, and any
per-link archiving failure alike.  (The legacy `index.js` revision
violates the claim on its fatal path, see the counterexample.) -/
theorem browser_scoped_acquisition (env : Env) (o : String) :
    (runNew env o).1.count Ev.launch = 1 ∧
      (runNew env o).1.count Ev.browserClose = 1 := by
  have hl0 : (runInternalNew env o).1.count Ev.launch = 0 :=
    List.count_eq_zero.mpr (no_browser_ev_runInternalNew env o).1
  have hc0 : (runInternalNew env o).1.count Ev.browserClose = 0 :=
    List.count_eq_zero.mpr (no_browser_ev_runInternalNew env o).2
  cases hok : (runInternalNew env o).2 <;>
    simp [runNew, hok, List.count_append, List.count_cons, hl0, hc0]

/-- C2 counterexample: in the legacy `index.js` revision, a fatal
discovery failure (entry navigation rejects) terminates the process via
`process.exit(1)` after the browser was acquired but before any
`browser.close()`: the resource is not released on that exit path. -/
theorem legacy_fatal_path_skips_release :
    Ev.launch ∈ mainOld envEntryFails "pages" ∧
    Ev.exitCode 1 ∈ mainOld envEntryFails "pages" ∧
    Ev.browserClose ∉ mainOld envEntryFails "pages" := by decide

/-- C3 (amended): in the current revision's `#downloadLink`, the output
directory is created only inside the render callback, i.e. only once the
link's page has loaded with a success response; a link that fails before
that point leaves no directory behind.  (The legacy `index.js` revision
creates the directory before navigating, see the counterexample.) -/
theorem mkdir_only_after_successful_load (env : Env) (o href d : String)
    (h : Ev.mkdir d ∈ downloadLinkNew env o href) :
    ∃ st c, env.linkNav href = NavResult.response true st c := by
  by_cases hs : href2slug href = ""
  · simp [downloadLinkNew, hs] at h
  · cases hn : env.linkNav href with
    | throws => simp [downloadLinkNew, hs, downloadPageNew, hn] at h
    | response ok st c =>
      cases ok with
      | false => simp [downloadLinkNew, hs, downloadPageNew, hn] at h
      | true => exact ⟨st, c, rfl⟩

/-- C3 witness: in an all-successful run the directory for `/x` is
created, and the theorem recovers the success response of its load. -/
theorem mkdir_only_after_successful_load_witness :
    ∃ st c, envAllOk.linkNav "/x" = NavResult.response true st c :=
  mkdir_only_after_successful_load envAllOk "pages" "/x" "pages" (by decide)

/-- C3 counterexample: the legacy revision creates the output directory
for `/x` even though that link's navigation rejects and no PDF is
written — a link that fails at navigation does leave a directory. -/
theorem legacy_mkdir_before_navigation :
    Ev.mkdir "pages" ∈ mainOld envLinkNavFails "pages" ∧
    Ev.errorDownload "/x" ∈ mainOld envLinkNavFails "pages" ∧
    Ev.pdfWrite "pages/x.pdf" ∉ mainOld envLinkNavFails "pages" := by decide

/-- C4 counterexample: slug derivation is not injective on distinct
non-empty root-relative hrefs — `/x` and `/x/` derive the same slug and
hence the same output path. -/
theorem slug_collision_counterexample :
    "/x" ≠ "/x/" ∧ href2slug "/x" = href2slug "/x/" ∧
    pathJoin "pages" (href2slug "/x" ++ ".pdf") =
      pathJoin "pages" (href2slug "/x/" ++ ".pdf") ∧
    ¬ (∀ h₁ h₂ : String, h₁ ≠ "" → h₂ ≠ "" →
        startsWithSlash h₁ = true → startsWithSlash h₂ = true →
        h₁ ≠ h₂ → href2slug h₁ ≠ href2slug h₂) := by
  refine ⟨by decide, by decide, by decide, fun H => ?_⟩
  exact H "/x" "/x/" (by decide) (by decide) (by decide) (by decide) (by decide)
    (by decide)

/-- C4 (amended): slug derivation is not collision-resistant in general —
distinct discovered hrefs can map to one slug (e.g. `/x` and `/x/`) —
and distinct slugs are only guaranteed for hrefs already in slug form
(fixed points of the derivation). -/
theorem slug_injective_on_slug_form :
    (∃ h₁ h₂ : String, h₁ ≠ h₂ ∧ startsWithSlash h₁ = true ∧
        startsWithSlash h₂ = true ∧ href2slug h₁ = href2slug h₂) ∧
    ∀ h₁ h₂ : String, href2slug h₁ = h₁ → href2slug h₂ = h₂ →
      href2slug h₁ = href2slug h₂ → h₁ = h₂ := by
  refine ⟨⟨"/x", "/x/", by decide, by decide, by decide, by decide⟩, ?_⟩
  intro h₁ h₂ e₁ e₂ e
  rw [e₁, e₂] at e
  exact e

/-- C4 witness: the fixed-point injectivity applied at `/a`. -/
theorem slug_injective_on_slug_form_witness : "/a" = "/a" :=
  slug_injective_on_slug_form.2 "/a" "/a" (by decide) (by decide) rfl

/-- C5: the root path `/` derives the slug `index` — directly in the
current `#href2slug`, and via the caller's `switch` in the legacy loop,
whose iteration for `/` writes `pages/index.pdf`. -/
theorem root_slug_is_index :
    href2slug "/" = "index" ∧
    Ev.pdfWrite "pages/index.pdf" ∈ processLinkOld envAllOk "pages" "/" := by decide

/-- C6 counterexample: `href2slug "//a///b//"` is not the claimed
`"a/b"` — in both revisions of the function. -/
theorem collapsed_slug_ne_claimed_value :
    href2slug "//a///b//" ≠ "a/b" ∧ href2slugOld "//a///b//" ≠ "a/b" := by decide

/-- C6 (amended): slug derivation collapses repeated separators and
strips the trailing one, but keeps the leading separator:
`href2slug "//a///b//" = "/a/b"` (in both revisions; the leading `/` is
later neutralized by `path.join`). -/
theorem collapsed_slug_value :
    href2slug "//a///b//" = "/a/b" ∧ href2slugOld "//a///b//" = "/a/b" ∧
    pathJoin "pages" (href2slug "//a///b//" ++ ".pdf") = "pages/a/b.pdf" := by decide

/-- C7: a link whose slug derivation is empty is skipped with only the
warning — no directory creation, no navigation, no PDF write — in both
revisions of the archiving loop. -/
theorem empty_slug_no_side_effects (env : Env) (o href : String)
    (h : href2slug href = "") :
    downloadLinkNew env o href = [Ev.warnEmptySlug href] ∧
    processLinkOld env o href = [Ev.warnEmptySlug href] := by
  have hold : href2slugOld href = "" := by
    rw [href2slugOld]
    rw [href2slug] at h
    split at h
    · exact absurd h (by decide)
    · rw [if_neg (by assumption)]
      exact h
  exact ⟨by simp [downloadLinkNew, h], by simp [processLinkOld, hold]⟩

/-- C7 witness: the anchor href `#` produces an empty slug and its
iteration is exactly the warning. -/
theorem empty_slug_no_side_effects_witness :
    href2slug "#" = "" ∧
    downloadLinkNew envAllOk "pages" "#" = [Ev.warnEmptySlug "#"] :=
  ⟨by decide, (empty_slug_no_side_effects envAllOk "pages" "#" (by decide)).1⟩

/-- C8: link discovery returns a set under exact string equality — the
result has no duplicates, and an href occurring in the document (once or
many times) contributes exactly one entry. -/
theorem collected_links_deduplicated (doc : List Anchor) (h : String) :
    (collectLinks doc).Nodup ∧
    (h ∈ rawLinks doc → (collectLinks doc).count h = 1) := by
  refine ⟨nodup_jsSet _, fun hm => ?_⟩
  exact List.count_eq_one_of_mem (nodup_jsSet _) ((mem_jsSet h (rawLinks doc)).mpr hm)

/-- C8 witness: a document with the duplicate href `/intro` yields
exactly one entry for it. -/
theorem collected_links_deduplicated_witness :
    "/intro" ∈ rawLinks [⟨some "/intro"⟩, ⟨some "/intro"⟩] ∧
    (collectLinks [⟨some "/intro"⟩, ⟨some "/intro"⟩]).count "/intro" = 1 :=
  ⟨by decide,
    (collected_links_deduplicated [⟨some "/intro"⟩, ⟨some "/intro"⟩] "/intro").2
      (by decide)⟩

/-- C9: an href is discovered iff some anchor of the document carries it
and it begins with `/`; in particular the external
`https://other.example/x` is never collected while `/x` is. -/
theorem discovered_iff_root_relative (doc : List Anchor) (h : String) :
    (h ∈ collectLinks doc ↔
      startsWithSlash h = true ∧ ∃ a ∈ doc, a.href = some h) ∧
    "https://other.example/x" ∉ collectLinks envAllOk.doc ∧
    "/x" ∈ collectLinks envAllOk.doc := by
  refine ⟨?_, by decide, by decide⟩
  rw [collectLinks, mem_jsSet, rawLinks, List.mem_filterMap]
  constructor
  · rintro ⟨a, ha, hf⟩
    rcases (anchorLink_eq_some a h).mp hf with ⟨hh, hsw⟩
    exact ⟨hsw, a, ha, hh⟩
  · rintro ⟨hsw, a, ha, hh⟩
    exact ⟨a, ha, (anchorLink_eq_some a h).mpr ⟨hh, hsw⟩⟩

/-- C10: the PDF rendering options are the fixed constants width 745,
height 1123, scale 0.95, margins 50px top/bottom and 25px left/right,
for every CLI configuration — the CLI's only inputs are the URL, the
output directory and the timeout, and the constructed settings keep the
default `pdfOptions` unchanged. -/
theorem pdf_options_fixed (cli : CliOptions) :
    (mkSettings cli).pdfOptions = Downloader.defaults.pdfOptions ∧
    (mkSettings cli).outDir = cli.outDir ∧
    (mkSettings cli).timeout = cli.timeout * 1000 ∧
    Downloader.defaults.pdfOptions.width = 745 ∧
    Downloader.defaults.pdfOptions.height = 1123 ∧
    Downloader.defaults.pdfOptions.scale = 0.95 ∧
    Downloader.defaults.pdfOptions.margin =
      { top := "50px", right := "25px", bottom := "50px", left := "25px" } :=
  ⟨rfl, rfl, rfl, rfl, rfl, rfl, rfl⟩
